import Mathlib

/-!
Verification development for the BCC push-notification generator
(`src/bcc_push_generator.py`).  The scoring/selection pipeline of class
`BCCPushNotificationGenerator` is embedded shallowly: pandas dataframes
become lists of records, float amounts become rationals, dict-valued
aggregates become structures wrapped in `Option` (the Python code returns
an empty dict for a client with no rows, and every consumer guards on
truthiness).  The notification renderer (`generate_push_notification`)
only produces display text that no scoring decision reads back; it is
abstracted as a function parameter `pushGen` of the batch runner.
-/

namespace BCC

/-- The ten products, in the order their keys are inserted into the
`scores` dict by `calculate_product_scores` (this insertion order is the
tie-break order of the selector, since Python's `sorted` is stable). -/
inductive Product where
  | travel_card
  | premium_card
  | credit_card
  | fx_exchange
  | cash_loan
  | multi_deposit
  | savings_deposit
  | accumulative_deposit
  | investments
  | gold
deriving DecidableEq

/-- Declaration order of the products in the score dict. -/
def productOrder : List Product :=
  [.travel_card, .premium_card, .credit_card, .fx_exchange, .cash_loan,
   .multi_deposit, .savings_deposit, .accumulative_deposit, .investments, .gold]

/-- A row of the clients table (columns used by the pipeline). -/
structure Client where
  client_code : Nat
  name : String
  status : String
  age : ℚ
  city : String
  avg_monthly_balance_KZT : ℚ
deriving DecidableEq

/-- A row of the transactions table (the `date` column is never read by the
scoring pipeline and is omitted). -/
structure Transaction where
  client_code : Nat
  category : String
  amount : ℚ
  currency : String
deriving DecidableEq

/-- A row of the transfers table (`type` column kept under its source name;
`date` is never read by the scoring pipeline and is omitted). -/
structure Transfer where
  client_code : Nat
  type : String
  direction : String
  amount : ℚ
deriving DecidableEq

/-- The three in-memory tables handed to the engine by the loader. -/
structure Tables where
  clients : List Client
  transactions : List Transaction
  transfers : List Transfer

/-- Result of `_analyze_transactions` on a non-empty transaction set.
`spending_variance` is the square of the source's `spending_volatility`
(sample standard deviation, 0 when fewer than 2 rows); only the comparison
`volatility < 50000` is ever consumed downstream, which is embedded as
`variance < 50000^2` since both sides are non-negative. -/
structure TransactionStats where
  total_spend : ℚ
  avg_transaction : ℚ
  transaction_count : Nat
  category_spend : String → ℚ
  top_categories : List String
  online_spend : ℚ
  travel_spend : ℚ
  premium_spend : ℚ
  spending_variance : ℚ

/-- Result of `_analyze_transfers` on a non-empty transfer set. -/
structure TransferStats where
  total_income : ℚ
  total_expenses : ℚ
  net_cashflow : ℚ
  atm_count : Nat
  atm_amount : ℚ
  loan_payments : ℚ
  has_installments : Bool
  p2p_count : Nat

/-- Result of `_analyze_fx_activity` (always a full record in the source). -/
structure FxActivity where
  fx_spend : ℚ
  fx_volume : ℚ
  has_fx_activity : Bool
  primary_fx_currency : Option String
deriving DecidableEq

/-- The per-client analysis dict built by `analyze_client`.  The
`transaction_stats` and `transfer_stats` sub-dicts are empty (`none`) for a
client with no matching rows, and every consumer guards on truthiness. -/
structure ClientAnalysis where
  client_code : Nat
  name : String
  status : String
  age : ℚ
  city : String
  avg_balance : ℚ
  transaction_stats : Option TransactionStats
  transfer_stats : Option TransferStats
  fx_activity : FxActivity

/-- One output row (`client_code`, `product`, `push_notification`). -/
structure Recommendation where
  client_code : Nat
  product : String
  push_notification : String
deriving DecidableEq

/-- Sum of the amounts of the transactions whose category lies in `cats`. -/
def categorySum (trans_df : List Transaction) (cats : List String) : ℚ :=
  ((trans_df.filter fun t => decide (t.category ∈ cats)).map (·.amount)).sum

/-- Sum of the amounts of the transactions in one single category
(a lookup in the source's `category_spend` dict, default 0). -/
def categorySpendOf (trans_df : List Transaction) (c : String) : ℚ :=
  ((trans_df.filter fun t => t.category == c).map (·.amount)).sum

/-- Sample variance (`ddof = 1`, as pandas `std` squared) of a list of
amounts; 0 when fewer than two values, mirroring the source's
`std() if len > 1 else 0` guard. -/
def sampleVariance (l : List ℚ) : ℚ :=
  if l.length > 1 then
    (l.map fun x => (x - l.sum / l.length) ^ 2).sum / ((l.length : ℚ) - 1)
  else 0

/-- The `groupby('category')` keys, i.e. the distinct categories. -/
def distinctCategories (trans_df : List Transaction) : List String :=
  (trans_df.map (·.category)).dedup

/-- Top categories: distinct categories ordered by descending summed spend,
truncated to 3 (`nlargest(3)`); the scoring engine only ever consumes the
length of this list. -/
def top_categoriesOf (trans_df : List Transaction) : List String :=
  ((distinctCategories trans_df).insertionSort
    (fun c d => categorySpendOf trans_df d ≤ categorySpendOf trans_df c)).take 3

/-- The three online-service categories. -/
def online_categories : List String := ["Едим дома", "Смотрим дома", "Играем дома"]

/-- The three travel-related categories. -/
def travel_categories : List String := ["Путешествия", "Отели", "Такси"]

/-- The four premium categories. -/
def premium_categories : List String :=
  ["Ювелирные украшения", "Косметика и Парфюмерия", "Кафе и рестораны", "Спа и массаж"]

/-- Embedding of `_analyze_transactions` (returns the empty dict, here
`none`, on an empty frame). -/
def analyze_transactions (trans_df : List Transaction) : Option TransactionStats :=
  if trans_df.isEmpty then none
  else
    let amounts := trans_df.map (·.amount)
    some
      { total_spend := amounts.sum
        avg_transaction := amounts.sum / trans_df.length
        transaction_count := trans_df.length
        category_spend := fun c => categorySpendOf trans_df c
        top_categories := top_categoriesOf trans_df
        online_spend := categorySum trans_df online_categories
        travel_spend := categorySum trans_df travel_categories
        premium_spend := categorySum trans_df premium_categories
        spending_variance := sampleVariance amounts }

/-- The three loan-type transfer types. -/
def loan_types : List String :=
  ["loan_payment_out", "cc_repayment_out", "installment_payment_out"]

/-- Embedding of `_analyze_transfers` (returns the empty dict, here `none`,
on an empty frame). -/
def analyze_transfers (transfers_df : List Transfer) : Option TransferStats :=
  if transfers_df.isEmpty then none
  else
    let income := ((transfers_df.filter fun t => t.direction == "in").map (·.amount)).sum
    let expenses := ((transfers_df.filter fun t => t.direction == "out").map (·.amount)).sum
    let loan_payments :=
      ((transfers_df.filter fun t => decide (t.type ∈ loan_types)).map (·.amount)).sum
    some
      { total_income := income
        total_expenses := expenses
        net_cashflow := income - expenses
        atm_count := (transfers_df.filter fun t => t.type == "atm_withdrawal").length
        atm_amount :=
          ((transfers_df.filter fun t => t.type == "atm_withdrawal").map (·.amount)).sum
        loan_payments := loan_payments
        has_installments := decide (loan_payments > 0)
        p2p_count := (transfers_df.filter fun t => t.type == "p2p_out").length }

/-- The two foreign currencies. -/
def fx_currencies : List String := ["USD", "EUR"]

/-- The transfer types counted as FX volume. -/
def fx_types : List String :=
  ["fx_buy", "fx_sell", "deposit_fx_topup_out", "deposit_fx_withdraw_in"]

/-- Most frequent element (value_counts head): ties keep the
first-appearance order. -/
def mostFrequent (l : List String) : Option String :=
  match l.dedup with
  | [] => none
  | c :: cs => some (cs.foldl (fun best d => if l.count best < l.count d then d else best) c)

/-- Embedding of `_analyze_fx_activity`. -/
def analyze_fx_activity (trans_df : List Transaction) (transfers_df : List Transfer) :
    FxActivity :=
  let fx_trans := trans_df.filter fun t => decide (t.currency ∈ fx_currencies)
  let fx_spend := (fx_trans.map (·.amount)).sum
  let fx_transfers := transfers_df.filter fun t => decide (t.type ∈ fx_types)
  let fx_volume := (fx_transfers.map (·.amount)).sum
  { fx_spend := fx_spend
    fx_volume := fx_volume
    has_fx_activity := decide (fx_spend + fx_volume > 0)
    primary_fx_currency := mostFrequent (fx_trans.map (·.currency)) }

/-- The default client synthesized by `analyze_client` when the code has no
row in the clients table. -/
def defaultClient (client_code : Nat) : Client :=
  { client_code := client_code
    name := "Клиент_" ++ toString client_code
    status := "Стандартный клиент"
    age := 35
    city := "Алматы"
    avg_monthly_balance_KZT := 100000 }

/-- Embedding of `analyze_client`: look the client up (synthesizing the
default record when absent), restrict the two activity tables to the
client, and aggregate. -/
def analyze_client (t : Tables) (client_code : Nat) : ClientAnalysis :=
  let client_info :=
    ((t.clients.filter fun c => c.client_code == client_code).head?).getD
      (defaultClient client_code)
  let client_trans := t.transactions.filter fun x => x.client_code == client_code
  let client_transfers := t.transfers.filter fun x => x.client_code == client_code
  { client_code := client_code
    name := client_info.name
    status := client_info.status
    age := client_info.age
    city := client_info.city
    avg_balance := client_info.avg_monthly_balance_KZT
    transaction_stats := analyze_transactions client_trans
    transfer_stats := analyze_transfers client_transfers
    fx_activity := analyze_fx_activity client_trans client_transfers }

/-- Travel-card score before the final `min(·, 100)` clip. -/
def travel_card_raw (analysis : ClientAnalysis) : ℚ :=
  match analysis.transaction_stats with
  | none => 0
  | some ts =>
    let travel_ratio := if ts.total_spend > 0 then ts.travel_spend / ts.total_spend else 0
    let travel_score := travel_ratio * 100
    let travel_score :=
      if analysis.fx_activity.has_fx_activity then travel_score + 20 else travel_score
    let taxi_spend := ts.category_spend "Такси"
    if taxi_spend > 20000 then travel_score + 15 else travel_score

/-- Premium-card score before the final `min(·, 100)` clip. -/
def premium_card_raw (analysis : ClientAnalysis) : ℚ :=
  let premium_score : ℚ := 0
  let premium_score :=
    if analysis.avg_balance > 500000 then premium_score + 40 else premium_score
  let premium_score :=
    if analysis.avg_balance > 1000000 then premium_score + 20 else premium_score
  let premium_score :=
    match analysis.transaction_stats with
    | none => premium_score
    | some ts =>
      let premium_ratio :=
        if ts.total_spend > 0 then ts.premium_spend / ts.total_spend else 0
      premium_score + premium_ratio * 30
  match analysis.transfer_stats with
  | none => premium_score
  | some tf =>
    let premium_score := if tf.atm_count > 5 then premium_score + 15 else premium_score
    if tf.p2p_count > 10 then premium_score + 10 else premium_score

/-- Credit-card score before the final `min(·, 100)` clip. -/
def credit_card_raw (analysis : ClientAnalysis) : ℚ :=
  let credit_score : ℚ :=
    match analysis.transaction_stats with
    | none => 0
    | some ts =>
      let credit_score : ℚ := if ts.top_categories.length ≥ 3 then 30 else 0
      let online_ratio := if ts.total_spend > 0 then ts.online_spend / ts.total_spend else 0
      let credit_score := credit_score + online_ratio * 40
      if ts.transaction_count > 50 then credit_score + 15 else credit_score
  match analysis.transfer_stats with
  | none => credit_score
  | some tf => if tf.has_installments then credit_score + 15 else credit_score

/-- FX-exchange score (never clipped in the source). -/
def fx_exchange_score (analysis : ClientAnalysis) : ℚ :=
  if analysis.fx_activity.has_fx_activity then
    let fx_score : ℚ := 50
    let fx_score := if analysis.fx_activity.fx_volume > 100000 then 70 else fx_score
    if analysis.fx_activity.fx_volume > 500000 then 90 else fx_score
  else 0

/-- Cash-loan score before the final `min(·, 100)` clip.  The whole block is
gated on the transfer stats being non-empty. -/
def cash_loan_raw (analysis : ClientAnalysis) : ℚ :=
  match analysis.transfer_stats with
  | none => 0
  | some tf =>
    let loan_score : ℚ := 0
    let loan_score := if tf.net_cashflow < -50000 then loan_score + 40 else loan_score
    let loan_score := if analysis.avg_balance < 100000 then loan_score + 30 else loan_score
    if tf.loan_payments > 0 then loan_score + 30 else loan_score

/-- Shared balance-tier base score for the three deposit products. -/
def deposit_base_score (analysis : ClientAnalysis) : ℚ :=
  let s : ℚ := 0
  let s := if analysis.avg_balance > 200000 then 40 else s
  let s := if analysis.avg_balance > 500000 then 60 else s
  if analysis.avg_balance > 1000000 then 80 else s

/-- Low-volatility flag of the savings-deposit scorer: `volatility < 50000`
where volatility is the sample standard deviation when at least two
transactions exist and 0 otherwise (embedded by squaring both sides of the
comparison); `False` when the transaction stats are empty. -/
def low_volatility (analysis : ClientAnalysis) : Bool :=
  match analysis.transaction_stats with
  | none => false
  | some ts =>
    if ts.transaction_count > 1 then decide (ts.spending_variance < 50000 ^ 2) else true

/-- Investments score. -/
def investments_score (analysis : ClientAnalysis) : ℚ :=
  if analysis.avg_balance > 500000 then
    let invest_score : ℚ := 50
    let invest_score := if analysis.age < 45 then invest_score + 20 else invest_score
    if analysis.age < 35 then invest_score + 10 else invest_score
  else 0

/-- Gold score. -/
def gold_score (analysis : ClientAnalysis) : ℚ :=
  let s : ℚ := 0
  let s := if analysis.avg_balance > 1000000 then 60 else s
  if analysis.avg_balance > 2000000 then 80 else s

/-- Embedding of `calculate_product_scores` as the score of each product
key of the dict it builds. -/
def calculate_product_scores (analysis : ClientAnalysis) : Product → ℚ
  | .travel_card => min (travel_card_raw analysis) 100
  | .premium_card => min (premium_card_raw analysis) 100
  | .credit_card => min (credit_card_raw analysis) 100
  | .fx_exchange => fx_exchange_score analysis
  | .cash_loan => min (cash_loan_raw analysis) 100
  | .multi_deposit =>
      if analysis.fx_activity.has_fx_activity then deposit_base_score analysis else 0
  | .savings_deposit =>
      if low_volatility analysis then deposit_base_score analysis
      else deposit_base_score analysis * (7 / 10)
  | .accumulative_deposit =>
      if analysis.avg_balance > 100000 then deposit_base_score analysis * (8 / 10) else 0
  | .investments => investments_score analysis
  | .gold => gold_score analysis

/-- The `scores.items()` association list, in dict insertion order. -/
def scoreItemsOf (s : Product → ℚ) : List (Product × ℚ) :=
  productOrder.map fun p => (p, s p)

/-- The score dict of a client analysis as an association list. -/
def scoreItems (analysis : ClientAnalysis) : List (Product × ℚ) :=
  scoreItemsOf (calculate_product_scores analysis)

/-- Embedding of `select_best_product`: stable-sort the items by descending
score (Python's `sorted(..., reverse=True)`), take the head, and fall back
to the savings deposit unless its score exceeds 20. -/
def select_best_product (scores : List (Product × ℚ)) : Product :=
  match scores.insertionSort (fun x y => y.2 ≤ x.2) with
  | [] => .savings_deposit
  | best :: _ => if best.2 > 20 then best.1 else .savings_deposit

/-- Embedding of `_get_product_name`: Russian display name per product key
(the dict's default arm is unreachable since every key passed is one of the
ten products). -/
def get_product_name : Product → String
  | .travel_card => "Карта для путешествий"
  | .premium_card => "Премиальная карта"
  | .credit_card => "Кредитная карта"
  | .fx_exchange => "Обмен валют"
  | .cash_loan => "Кредит наличными"
  | .multi_deposit => "Депозит мультивалютный"
  | .savings_deposit => "Депозит сберегательный"
  | .accumulative_deposit => "Депозит накопительный"
  | .investments => "Инвестиции"
  | .gold => "Золотые слитки"

/-- The recommendation appended by the `except` branch of
`process_all_clients` when processing one client raises. -/
def fallbackRecommendation (client_code : Nat) : Recommendation :=
  { client_code := client_code
    product := "Сберегательный депозит"
    push_notification := "У нас есть выгодное предложение для вас. Узнать подробности." }

/-- Loop body of `process_all_clients`: the try-block of one client is
abstracted as a `step` yielding either the (product name, push text) pair
it would append, or the exception it raised; in both cases exactly one row
carrying the loop's own `client_code` is appended. -/
def process_all_clients (step : Nat → Except String (String × String))
    (codes : List Nat) : List Recommendation :=
  codes.map fun client_code =>
    match step client_code with
    | .ok (product, push_text) =>
        { client_code := client_code, product := product, push_notification := push_text }
    | .error _ => fallbackRecommendation client_code

/-- The non-raising try-block body: analyze, score, select, render
(`pushGen` standing for `generate_push_notification`, whose display text no
scoring decision reads back). -/
def normalStep (t : Tables) (pushGen : ClientAnalysis → Product → String)
    (client_code : Nat) : Except String (String × String) :=
  let analysis := analyze_client t client_code
  let best_product := select_best_product (scoreItems analysis)
  .ok (get_product_name best_product, pushGen analysis best_product)

/-- The sorted set of client codes discovered across the three tables
(`sorted(all_client_codes)` over the union set). -/
def discoveredCodes (t : Tables) : List Nat :=
  ((t.clients.map (·.client_code) ++ t.transactions.map (·.client_code)
      ++ t.transfers.map (·.client_code)).dedup).insertionSort (· ≤ ·)

/-- Embedding of `save_results`: sort the collected rows by client code
(`df.sort_values('client_code')`). -/
def save_results (recommendations : List Recommendation) : List Recommendation :=
  recommendations.insertionSort (fun a b => a.client_code ≤ b.client_code)

/-- The whole batch: discover codes, process each, sort, write. -/
def run_pipeline (t : Tables) (pushGen : ClientAnalysis → Product → String) :
    List Recommendation :=
  save_results (process_all_clients (normalStep t pushGen) (discoveredCodes t))

/-- First entry of an association list attaining the maximal score; on a
tie the earlier entry wins.  This is the specification-side description of
what the head of the selector's stable descending sort is. -/
def firstMaxEntry : List (Product × ℚ) → Option (Product × ℚ)
  | [] => none
  | x :: xs =>
    match firstMaxEntry xs with
    | none => some x
    | some m => if m.2 ≤ x.2 then some x else some m

/-- Closed-form restatement of the premium-card scorer as the source
implements it: two balance-threshold bonuses, a premium-spend-ratio term,
and two transfer-count bonuses, clipped to 100.  The client's status tier
and total transfer volume are not inputs. -/
def premium_card_formula (a : ClientAnalysis) : ℚ :=
  min ((if a.avg_balance > 500000 then (40 : ℚ) else 0)
      + (if a.avg_balance > 1000000 then (20 : ℚ) else 0)
      + (match a.transaction_stats with
         | none => 0
         | some ts =>
             (if ts.total_spend > 0 then ts.premium_spend / ts.total_spend else 0) * 30)
      + (match a.transfer_stats with
         | none => 0
         | some tf =>
             (if tf.atm_count > 5 then (15 : ℚ) else 0)
             + (if tf.p2p_count > 10 then (10 : ℚ) else 0))) 100

/-- The category-subtotal aggregates of an analysis are non-negative, as
they are whenever every transaction amount is non-negative. -/
def NonnegSpends (a : ClientAnalysis) : Prop :=
  ∀ ts, a.transaction_stats = some ts →
    0 ≤ ts.travel_spend ∧ 0 ≤ ts.premium_spend ∧ 0 ≤ ts.online_spend

/-- Concrete tables for the spec's premium example: balance 2,000,000,
premium status, one incoming transfer of 12,000,000, no transactions. -/
def premiumExampleTables : Tables :=
  { clients := [{ client_code := 1, name := "Асель", status := "Премиальный клиент",
                  age := 35, city := "Алматы", avg_monthly_balance_KZT := 2000000 }]
    transactions := []
    transfers := [{ client_code := 1, type := "salary_in", direction := "in",
                    amount := 12000000 }] }

/-- Concrete tables: one client with no transactions, no transfers and
average balance 300,000. -/
def idleClientTables : Tables :=
  { clients := [{ client_code := 1, name := "Бауржан", status := "Стандартный клиент",
                  age := 40, city := "Алматы", avg_monthly_balance_KZT := 300000 }]
    transactions := []
    transfers := [] }

/-- Concrete tables: one client with average balance 50,000 and no
transfers at all. -/
def noTransferTables : Tables :=
  { clients := [{ client_code := 1, name := "Гульнара", status := "Стандартный клиент",
                  age := 40, city := "Алматы", avg_monthly_balance_KZT := 50000 }]
    transactions := []
    transfers := [] }

/-- Concrete tables: one client whose transaction list contains a negative
amount in a travel category (refunds/chargebacks are representable in the
input since amounts are only coerced to numeric, never to non-negative). -/
def negativeAmountTables : Tables :=
  { clients := [{ client_code := 1, name := "Данияр", status := "Стандартный клиент",
                  age := 40, city := "Алматы", avg_monthly_balance_KZT := 0 }]
    transactions :=
      [{ client_code := 1, category := "Путешествия", amount := -100, currency := "KZT" },
       { client_code := 1, category := "Продукты питания", amount := 200, currency := "KZT" }]
    transfers := [] }

/-- Concrete tables with two clients and no activity rows. -/
def twoClientTables : Tables :=
  { clients := [{ client_code := 2, name := "Жанна", status := "Стандартный клиент",
                  age := 30, city := "Астана", avg_monthly_balance_KZT := 150000 },
                { client_code := 1, name := "Ерлан", status := "Стандартный клиент",
                  age := 50, city := "Алматы", avg_monthly_balance_KZT := 120000 }]
    transactions := []
    transfers := [] }

/-- A per-client step that raises on client 2 and succeeds on every other
client. -/
def failingStep : Nat → Except String (String × String) :=
  fun client_code =>
    if client_code = 2 then .error "processing error" else .ok ("Инвестиции", "текст")

/-- A score map with a tie at the maximum between the premium card and the
credit card (declared in that order). -/
def tieScores : Product → ℚ :=
  fun p => if p = .premium_card ∨ p = .credit_card then 50 else 0

/-- The relation used by `save_results`: order rows by client code. -/
instance : IsTotal Recommendation (fun a b => a.client_code ≤ b.client_code) :=
  ⟨fun a b => Nat.le_total a.client_code b.client_code⟩

instance : IsTrans Recommendation (fun a b => a.client_code ≤ b.client_code) :=
  ⟨fun _ _ _ h h' => Nat.le_trans h h'⟩

instance : IsAntisymm Recommendation (fun a b => a.client_code < b.client_code) :=
  ⟨fun _ _ h h' => absurd h' (Nat.lt_asymm h)⟩

/-- Every product occurs in the declaration-order list. -/
theorem mem_productOrder (p : Product) : p ∈ productOrder := by
  cases p <;> simp [productOrder]

/-- The first-max entry is missing exactly on the empty list. -/
theorem firstMaxEntry_eq_none {l : List (Product × ℚ)} :
    firstMaxEntry l = none ↔ l = [] := by
  cases l with
  | nil => simp [firstMaxEntry]
  | cons x xs =>
    simp only [firstMaxEntry]
    cases firstMaxEntry xs with
    | none => simp
    | some m =>
      constructor
      · intro h
        by_cases hm : m.2 ≤ x.2 <;> simp [hm] at h
      · intro h
        cases h

/-- The head of the stable descending sort used by the selector is the
first entry attaining the maximal score. -/
theorem head_insertionSort_eq_firstMaxEntry (l : List (Product × ℚ)) :
    (l.insertionSort (fun x y => y.2 ≤ x.2)).head? = firstMaxEntry l := by
  induction l with
  | nil => rfl
  | cons x xs ih =>
    rw [List.insertionSort]
    cases hs : xs.insertionSort (fun x y => y.2 ≤ x.2) with
    | nil =>
      have hxs : xs = [] := by
        have hp := List.perm_insertionSort (fun x y : Product × ℚ => y.2 ≤ x.2) xs
        rw [hs] at hp
        exact hp.symm.eq_nil
      subst hxs
      simp [List.orderedInsert, firstMaxEntry]
    | cons b rest =>
      rw [hs] at ih
      simp only [List.head?] at ih
      simp only [firstMaxEntry, ← ih]
      by_cases hb : b.2 ≤ x.2
      · rw [List.orderedInsert, if_pos hb]
        simp [hb]
      · rw [List.orderedInsert, if_neg hb]
        simp [hb]

/-- The first-max entry is a member attaining the maximum, and every entry
strictly before it in the list has strictly smaller score. -/
theorem firstMaxEntry_spec :
    ∀ {l : List (Product × ℚ)} {m : Product × ℚ}, firstMaxEntry l = some m →
      m ∈ l ∧ (∀ x ∈ l, x.2 ≤ m.2)
        ∧ ∃ l₁ l₂, l = l₁ ++ m :: l₂ ∧ ∀ x ∈ l₁, x.2 < m.2 := by
  intro l
  induction l with
  | nil => intro m h; cases h
  | cons x xs ih =>
    intro m h
    cases hx : firstMaxEntry xs with
    | none =>
      simp only [firstMaxEntry, hx] at h
      have hxs : xs = [] := firstMaxEntry_eq_none.mp hx
      subst hxs
      have h := Option.some.inj h
      subst h
      refine ⟨List.mem_singleton_self _, ?_, [], [], rfl, ?_⟩
      · intro y hy
        rw [List.mem_singleton] at hy
        subst hy
        exact le_refl _
      · intro y hy
        cases hy
    | some m' =>
      simp only [firstMaxEntry, hx] at h
      obtain ⟨hmem, hbound, l₁, l₂, hsplit, hlt⟩ := ih hx
      by_cases hc : m'.2 ≤ x.2
      · rw [if_pos hc] at h
        have h := Option.some.inj h
        subst h
        refine ⟨List.mem_cons_self _ _, ?_, [], xs, rfl, ?_⟩
        · intro y hy
          rcases List.mem_cons.mp hy with hy | hy
          · subst hy; exact le_refl _
          · exact le_trans (hbound y hy) hc
        · intro y hy
          cases hy
      · rw [if_neg hc] at h
        have h := Option.some.inj h
        subst h
        refine ⟨List.mem_cons_of_mem _ hmem, ?_, x :: l₁, l₂, by rw [hsplit]; rfl, ?_⟩
        · intro y hy
          rcases List.mem_cons.mp hy with hy | hy
          · subst hy; exact le_of_lt (lt_of_not_le hc)
          · exact hbound y hy
        · intro y hy
          rcases List.mem_cons.mp hy with hy | hy
          · subst hy; exact lt_of_not_le hc
          · exact hlt y hy

/-- Entries of the score association list are exactly the pairs
`(p, s p)`. -/
theorem mem_scoreItemsOf {s : Product → ℚ} {x : Product × ℚ} (h : x ∈ scoreItemsOf s) :
    x.1 ∈ productOrder ∧ x.2 = s x.1 := by
  rcases List.mem_map.mp h with ⟨p, hp, rfl⟩
  exact ⟨hp, rfl⟩

/-- The score association list is never empty. -/
theorem scoreItemsOf_ne_nil (s : Product → ℚ) : scoreItemsOf s ≠ [] := by
  simp [scoreItemsOf, productOrder]

/-- When no score exceeds the threshold, the selector falls back to the
savings deposit. -/
theorem select_eq_savings_of_le20 (s : Product → ℚ) (h : ∀ p, s p ≤ 20) :
    select_best_product (scoreItemsOf s) = Product.savings_deposit := by
  unfold select_best_product
  cases hs : (scoreItemsOf s).insertionSort (fun x y => y.2 ≤ x.2) with
  | nil => rfl
  | cons best rest =>
    have hmem : best ∈ scoreItemsOf s := by
      have := List.mem_insertionSort (fun x y : Product × ℚ => y.2 ≤ x.2)
        (l := scoreItemsOf s) (x := best)
      rw [hs] at this
      exact this.mp (List.mem_cons_self _ _)
    obtain ⟨-, hval⟩ := mem_scoreItemsOf hmem
    have : ¬ best.2 > 20 := by rw [hval]; exact not_lt.mpr (h best.1)
    simp [this]

/-- Characterization of the selector when some score clears the threshold:
it returns the first entry of the score map attaining the maximum. -/
theorem select_eq_firstMax_of_gt20 (s : Product → ℚ) {m : Product × ℚ}
    (hm : firstMaxEntry (scoreItemsOf s) = some m) (h20 : 20 < m.2) :
    select_best_product (scoreItemsOf s) = m.1 := by
  unfold select_best_product
  cases hs : (scoreItemsOf s).insertionSort (fun x y => y.2 ≤ x.2) with
  | nil =>
    exfalso
    have hh := head_insertionSort_eq_firstMaxEntry (scoreItemsOf s)
    rw [hs, hm] at hh
    cases hh
  | cons best rest =>
    have hh := head_insertionSort_eq_firstMaxEntry (scoreItemsOf s)
    rw [hs, hm] at hh
    have hb : best = m := Option.some.inj hh
    subst hb
    simp [h20]

/-- Claim C1: for every score map, the selector returns a member of the
ten-product set; when every score is at most 20 it returns the savings
deposit; and when some score exceeds 20 it returns a product of maximal
score such that every product declared before it in the score map has
strictly smaller score (the declaration-order tie-break). -/
theorem selector_policy (s : Product → ℚ) :
    select_best_product (scoreItemsOf s) ∈ productOrder
    ∧ ((∀ p, s p ≤ 20) → select_best_product (scoreItemsOf s) = Product.savings_deposit)
    ∧ ∀ p, 20 < s p →
        (∀ q, s q ≤ s (select_best_product (scoreItemsOf s)))
        ∧ ∃ before after,
            scoreItemsOf s
              = before ++ (select_best_product (scoreItemsOf s),
                  s (select_best_product (scoreItemsOf s))) :: after
            ∧ ∀ x ∈ before, x.2 < s (select_best_product (scoreItemsOf s)) := by
  obtain ⟨m, hm⟩ : ∃ m, firstMaxEntry (scoreItemsOf s) = some m := by
    cases hfm : firstMaxEntry (scoreItemsOf s) with
    | none => exact absurd (firstMaxEntry_eq_none.mp hfm) (scoreItemsOf_ne_nil s)
    | some m => exact ⟨m, rfl⟩
  obtain ⟨hmem, hbound, l₁, l₂, hsplit, hlt⟩ := firstMaxEntry_spec hm
  obtain ⟨hm1, hm2⟩ := mem_scoreItemsOf hmem
  refine ⟨?_, select_eq_savings_of_le20 s, ?_⟩
  · by_cases h20 : 20 < m.2
    · rw [select_eq_firstMax_of_gt20 s hm h20]; exact hm1
    · have hle : ∀ p, s p ≤ 20 := by
        intro p
        have := hbound (p, s p) (List.mem_map_of_mem _ (mem_productOrder p))
        exact le_trans this (not_lt.mp h20)
      rw [select_eq_savings_of_le20 s hle]
      exact mem_productOrder _
  · intro p hp
    have hpmem : (p, s p) ∈ scoreItemsOf s :=
      List.mem_map_of_mem _ (mem_productOrder p)
    have h20 : 20 < m.2 := lt_of_lt_of_le hp (hbound _ hpmem)
    have hsel : select_best_product (scoreItemsOf s) = m.1 :=
      select_eq_firstMax_of_gt20 s hm h20
    have hsval : s (select_best_product (scoreItemsOf s)) = m.2 := by
      rw [hsel, ← hm2]
    constructor
    · intro q
      rw [hsval]
      exact hbound (q, s q) (List.mem_map_of_mem _ (mem_productOrder q))
    · refine ⟨l₁, l₂, ?_, ?_⟩
      · have hpair :
            (select_best_product (scoreItemsOf s),
              s (select_best_product (scoreItemsOf s))) = m := by
          rw [hsel, ← hm2]
        rw [hpair]
        exact hsplit
      · intro x hx
        rw [hsval]
        exact hlt x hx

/-- Witness for C1 at a concrete tied score map: the premium card and the
credit card both score 50; the selector's pick scores at least as much as
the credit card (it picks the earlier-declared premium card). -/
theorem selector_policy_witness :
    tieScores Product.credit_card
      ≤ tieScores (select_best_product (scoreItemsOf tieScores)) :=
  ((selector_policy tieScores).2.2 Product.premium_card (by decide)).1 Product.credit_card

/-- Counterexample to claim C2: for the spec's example client (average
balance 2,000,000, premium status, total transfer volume 12,000,000, no
transactions) the premium-card score is 60, not 100, and the selected
product is the investments product, not the premium card. -/
theorem premium_example_counterexample :
    calculate_product_scores (analyze_client premiumExampleTables 1) .premium_card = 60
    ∧ calculate_product_scores (analyze_client premiumExampleTables 1) .premium_card ≠ 100
    ∧ select_best_product (scoreItems (analyze_client premiumExampleTables 1))
        = Product.investments
    ∧ Product.investments ≠ Product.premium_card := by
  refine ⟨?_, ?_, ?_, by decide⟩ <;>
  · simp [premiumExampleTables, min_def, calculate_product_scores, travel_card_raw, premium_card_raw,
      credit_card_raw, fx_exchange_score, cash_loan_raw, deposit_base_score, low_volatility,
      investments_score, gold_score, analyze_client, analyze_transactions, analyze_transfers,
      analyze_fx_activity, defaultClient, categorySum, categorySpendOf, sampleVariance,
      top_categoriesOf, distinctCategories, loan_types, fx_currencies, fx_types, mostFrequent,
      select_best_product, scoreItems, scoreItemsOf, productOrder,
      List.insertionSort, List.orderedInsert]
    try norm_num

/-- Claim C2 (amended): the premium-card score is the sum of a 40-point
bonus for balance above 500,000, a 20-point bonus for balance above
1,000,000, thirty times the premium-spend share of total spend, a 15-point
bonus for more than 5 ATM withdrawals and a 10-point bonus for more than
10 P2P transfers, clipped to 100; the client's status tier and total
transfer volume are not inputs, and on the spec's example client the score
is 60 and the investments product is selected. -/
theorem premium_card_score_characterization :
    (∀ a, calculate_product_scores a .premium_card = premium_card_formula a)
    ∧ calculate_product_scores (analyze_client premiumExampleTables 1) .premium_card = 60
    ∧ select_best_product (scoreItems (analyze_client premiumExampleTables 1))
        = Product.investments := by
  refine ⟨?_, ?_, ?_⟩
  case refine_2 =>
    simp [premiumExampleTables, min_def, calculate_product_scores, travel_card_raw, premium_card_raw,
      credit_card_raw, fx_exchange_score, cash_loan_raw, deposit_base_score, low_volatility,
      investments_score, gold_score, analyze_client, analyze_transactions, analyze_transfers,
      analyze_fx_activity, defaultClient, categorySum, categorySpendOf, sampleVariance,
      top_categoriesOf, distinctCategories, loan_types, fx_currencies, fx_types, mostFrequent,
      select_best_product, scoreItems, scoreItemsOf, productOrder,
      List.insertionSort, List.orderedInsert]
    try norm_num
  case refine_3 =>
    simp [premiumExampleTables, min_def, calculate_product_scores, travel_card_raw, premium_card_raw,
      credit_card_raw, fx_exchange_score, cash_loan_raw, deposit_base_score, low_volatility,
      investments_score, gold_score, analyze_client, analyze_transactions, analyze_transfers,
      analyze_fx_activity, defaultClient, categorySum, categorySpendOf, sampleVariance,
      top_categoriesOf, distinctCategories, loan_types, fx_currencies, fx_types, mostFrequent,
      select_best_product, scoreItems, scoreItemsOf, productOrder,
      List.insertionSort, List.orderedInsert]
    try norm_num
  intro a
  obtain ⟨cc, nm, st, ag, ct, bal, ts, tf, fx⟩ := a
  simp only [calculate_product_scores, premium_card_raw, premium_card_formula]
  cases ts <;> cases tf <;> dsimp only <;> split_ifs <;> ring

/-- Helper: an analysis with empty transaction stats, empty transfer
stats, no FX activity and balance at most 200,000 scores zero on every
product. -/
theorem scores_eq_zero_of_idle (a : ClientAnalysis) (hts : a.transaction_stats = none)
    (htf : a.transfer_stats = none) (hfx : a.fx_activity.has_fx_activity = false)
    (hbal : a.avg_balance ≤ 200000) (p : Product) :
    calculate_product_scores a p = 0 := by
  have h2 : ¬ a.avg_balance > 200000 := by linarith
  have h5 : ¬ a.avg_balance > 500000 := by linarith
  have h10 : ¬ a.avg_balance > 1000000 := by linarith
  have h20 : ¬ a.avg_balance > 2000000 := by linarith
  cases p <;>
    simp [calculate_product_scores, travel_card_raw, premium_card_raw, credit_card_raw,
      fx_exchange_score, cash_loan_raw, deposit_base_score, low_volatility,
      investments_score, gold_score, hts, htf, hfx, h2, h5, h10, h20]

/-- Counterexample to claim C3: a client with zero transactions and zero
transfers but balance 300,000 is routed to the accumulative deposit, not
to the savings-deposit fallback. -/
theorem idle_client_counterexample :
    (analyze_client idleClientTables 1).transaction_stats = none
    ∧ (analyze_client idleClientTables 1).transfer_stats = none
    ∧ select_best_product (scoreItems (analyze_client idleClientTables 1))
        = Product.accumulative_deposit
    ∧ Product.accumulative_deposit ≠ Product.savings_deposit := by
  refine ⟨rfl, rfl, ?_, by decide⟩
  simp [idleClientTables, min_def, calculate_product_scores, travel_card_raw, premium_card_raw,
      credit_card_raw, fx_exchange_score, cash_loan_raw, deposit_base_score, low_volatility,
      investments_score, gold_score, analyze_client, analyze_transactions, analyze_transfers,
      analyze_fx_activity, defaultClient, categorySum, categorySpendOf, sampleVariance,
      top_categoriesOf, distinctCategories, loan_types, fx_currencies, fx_types, mostFrequent,
      select_best_product, scoreItems, scoreItemsOf, productOrder,
      List.insertionSort, List.orderedInsert]
  try norm_num

/-- Claim C3 (amended): a client with zero transactions and zero transfers
gets empty transaction and transfer aggregates and an all-zero FX record,
and — provided the average balance is at most 200,000, so that no
balance-driven score exceeds the threshold — the selector returns the
savings-deposit fallback. -/
theorem idle_client_fallback (cs : List Client) (code : Nat) :
    (analyze_client ⟨cs, [], []⟩ code).transaction_stats = none
    ∧ (analyze_client ⟨cs, [], []⟩ code).transfer_stats = none
    ∧ (analyze_client ⟨cs, [], []⟩ code).fx_activity
        = { fx_spend := 0, fx_volume := 0, has_fx_activity := false,
            primary_fx_currency := none }
    ∧ ((analyze_client ⟨cs, [], []⟩ code).avg_balance ≤ 200000 →
        select_best_product (scoreItems (analyze_client ⟨cs, [], []⟩ code))
          = Product.savings_deposit) := by
  have hfx : (analyze_client ⟨cs, [], []⟩ code).fx_activity
      = { fx_spend := 0, fx_volume := 0, has_fx_activity := false,
          primary_fx_currency := none } := by
    simp [analyze_client, analyze_fx_activity, mostFrequent]
  refine ⟨rfl, rfl, hfx, fun hbal => ?_⟩
  have hle : ∀ p, calculate_product_scores (analyze_client ⟨cs, [], []⟩ code) p ≤ 20 := by
    intro p
    rw [scores_eq_zero_of_idle _ rfl rfl (by rw [hfx]) hbal p]
    norm_num
  exact select_eq_savings_of_le20 _ hle

/-- Witness for C3 (amended) at a concrete idle client with balance
120,000. -/
theorem idle_client_fallback_witness :
    select_best_product (scoreItems (analyze_client ⟨twoClientTables.clients, [], []⟩ 1))
      = Product.savings_deposit :=
  (idle_client_fallback twoClientTables.clients 1).2.2.2 (by decide)

set_option maxHeartbeats 2000000 in
/-- Claim C4: increasing the average balance, all other analysis fields
held fixed, never decreases the premium-card, investments or gold
scores. -/
theorem balance_monotone (a : ClientAnalysis) (b : ℚ) (h : a.avg_balance < b) :
    calculate_product_scores a .premium_card
        ≤ calculate_product_scores { a with avg_balance := b } .premium_card
    ∧ calculate_product_scores a .investments
        ≤ calculate_product_scores { a with avg_balance := b } .investments
    ∧ calculate_product_scores a .gold
        ≤ calculate_product_scores { a with avg_balance := b } .gold := by
  obtain ⟨cc, nm, st, ag, ct, bal, ts, tf, fx⟩ := a
  simp only [ClientAnalysis.avg_balance] at h
  refine ⟨?_, ?_, ?_⟩
  · simp only [calculate_product_scores]
    apply min_le_min _ le_rfl
    cases ts <;> cases tf <;> simp only [premium_card_raw] <;> split_ifs <;> linarith
  · simp only [calculate_product_scores, investments_score]
    dsimp only
    split_ifs <;> linarith
  · simp only [calculate_product_scores, gold_score]
    dsimp only
    split_ifs <;> linarith

/-- Witness for C4: raising the no-transfer client's balance from 50,000
to 3,000,000 does not decrease the gold score. -/
theorem balance_monotone_witness :
    calculate_product_scores (analyze_client noTransferTables 1) .gold
      ≤ calculate_product_scores
          { analyze_client noTransferTables 1 with avg_balance := 3000000 } .gold :=
  (balance_monotone (analyze_client noTransferTables 1) 3000000 (by decide)).2.2

/-- Counterexample to claim C5: a client with no transfers and average
balance 50,000 satisfies the low-balance condition, yet the cash-loan
score is 0, not 30 — the balance bonus is not granted independently of the
other features. -/
theorem cash_loan_counterexample :
    (analyze_client noTransferTables 1).avg_balance < 100000
    ∧ calculate_product_scores (analyze_client noTransferTables 1) .cash_loan = 0
    ∧ calculate_product_scores (analyze_client noTransferTables 1) .cash_loan ≠ 30 := by
  refine ⟨by decide, rfl, ?_⟩
  simp [noTransferTables, min_def, calculate_product_scores, travel_card_raw, premium_card_raw,
      credit_card_raw, fx_exchange_score, cash_loan_raw, deposit_base_score, low_volatility,
      investments_score, gold_score, analyze_client, analyze_transactions, analyze_transfers,
      analyze_fx_activity, defaultClient, categorySum, categorySpendOf, sampleVariance,
      top_categoriesOf, distinctCategories, loan_types, fx_currencies, fx_types, mostFrequent,
      select_best_product, scoreItems, scoreItemsOf, productOrder,
      List.insertionSort, List.orderedInsert]
  try norm_num

/-- Claim C5 (amended): when the client has at least one transfer (the
transfer stats are non-empty) the cash-loan score is exactly the sum of
the three independent flat bonuses — 40 when net cashflow is below
−50,000, 30 when average balance is below 100,000, 30 when any loan-type
transfer exists — with no ratio term; when the client has no transfers,
the score is 0 regardless of the other conditions. -/
theorem cash_loan_score_characterization (a : ClientAnalysis) :
    (a.transfer_stats = none → calculate_product_scores a .cash_loan = 0)
    ∧ ∀ tf, a.transfer_stats = some tf →
        calculate_product_scores a .cash_loan
          = (if tf.net_cashflow < -50000 then (40 : ℚ) else 0)
            + (if a.avg_balance < 100000 then (30 : ℚ) else 0)
            + (if tf.loan_payments > 0 then (30 : ℚ) else 0) := by
  constructor
  · intro h
    simp [calculate_product_scores, cash_loan_raw, h]
  · intro tf h
    simp only [calculate_product_scores, cash_loan_raw, h]
    split_ifs <;> norm_num [min_def]

/-- Witness for C5 (amended) at the concrete no-transfer client. -/
theorem cash_loan_characterization_witness :
    calculate_product_scores (analyze_client noTransferTables 1) .cash_loan = 0 :=
  (cash_loan_score_characterization (analyze_client noTransferTables 1)).1 rfl

/-- Every row the batch loop appends carries the loop's own client code,
whether the step succeeded or raised. -/
theorem process_all_clients_map_code (step : Nat → Except String (String × String))
    (codes : List Nat) :
    (process_all_clients step codes).map (·.client_code) = codes := by
  unfold process_all_clients
  rw [List.map_map]
  conv_rhs => rw [← List.map_id codes]
  apply List.map_congr_left
  intro c _
  rcases hstep : step c with e | pr
  · simp [hstep, fallbackRecommendation, Function.comp]
  · rcases pr with ⟨prod, push⟩
    simp [hstep, Function.comp]

/-- The discovered client codes are pairwise distinct. -/
theorem discoveredCodes_nodup (t : Tables) : (discoveredCodes t).Nodup := by
  unfold discoveredCodes
  exact (List.perm_insertionSort _ _).nodup_iff.mpr (List.nodup_dedup _)

/-- Claim C6: for any per-client step function (the try-block body, which
may fail on any subset of clients) the batch emits exactly one row per
discovered client code, in order; a failing client's row is the fallback
recommendation, and no failure aborts the processing of the remaining
clients. -/
theorem batch_one_row_per_client (step : Nat → Except String (String × String))
    (t : Tables) :
    (process_all_clients step (discoveredCodes t)).map (·.client_code) = discoveredCodes t
    ∧ (discoveredCodes t).Nodup
    ∧ (process_all_clients step (discoveredCodes t)).length = (discoveredCodes t).length
    ∧ ∀ c ∈ discoveredCodes t, ∀ e, step c = .error e →
        fallbackRecommendation c ∈ process_all_clients step (discoveredCodes t) := by
  refine ⟨process_all_clients_map_code step _, discoveredCodes_nodup t, ?_, ?_⟩
  · have hlen := congrArg List.length (process_all_clients_map_code step (discoveredCodes t))
    rwa [List.length_map] at hlen
  · intro c hc e he
    unfold process_all_clients
    have himg :
        (fun client_code =>
          match step client_code with
          | .ok (product, push_text) =>
              { client_code := client_code, product := product,
                push_notification := push_text }
          | .error _ => fallbackRecommendation client_code) c
          = fallbackRecommendation c := by
      simp [he]
    rw [← himg]
    exact List.mem_map_of_mem _ hc

/-- Witness for C6: with two discovered clients and a step that raises on
client 2, the batch still emits the fallback row for client 2. -/
theorem batch_one_row_witness :
    fallbackRecommendation 2 ∈ process_all_clients failingStep (discoveredCodes twoClientTables) :=
  (batch_one_row_per_client failingStep twoClientTables).2.2.2 2 (by decide)
    "processing error" rfl

/-- Claim C7: a client code with no row in the clients table is analyzed
against the synthesized default record: standard status, age 35, city
Алматы, non-negative default balance 100,000. -/
theorem missing_client_default (t : Tables) (client_code : Nat)
    (h : ∀ c ∈ t.clients, c.client_code ≠ client_code) :
    (analyze_client t client_code).name = "Клиент_" ++ toString client_code
    ∧ (analyze_client t client_code).status = "Стандартный клиент"
    ∧ (analyze_client t client_code).age = 35
    ∧ (analyze_client t client_code).city = "Алматы"
    ∧ (analyze_client t client_code).avg_balance = 100000
    ∧ 0 ≤ (analyze_client t client_code).avg_balance := by
  have hfilter : t.clients.filter (fun c => c.client_code == client_code) = [] := by
    rw [List.filter_eq_nil_iff]
    intro c hc
    simpa using h c hc
  refine ⟨?_, ?_, ?_, ?_, ?_, ?_⟩ <;>
  · simp [analyze_client, hfilter, defaultClient]
    try norm_num

/-- Witness for C7: client code 5 has no row in the example clients table
and receives the default standard status. -/
theorem missing_client_default_witness :
    (analyze_client premiumExampleTables 5).status = "Стандартный клиент" :=
  (missing_client_default premiumExampleTables 5 (by decide)).2.1

/-- The deposit base score takes one of the values 0, 40, 60, 80. -/
theorem deposit_base_score_bounds (a : ClientAnalysis) :
    0 ≤ deposit_base_score a ∧ deposit_base_score a ≤ 80 := by
  unfold deposit_base_score
  split_ifs <;> norm_num

/-- Aggregates of a non-empty transaction set with non-negative amounts
are non-negative. -/
theorem analyze_transactions_nonneg (trans_df : List Transaction)
    (h : ∀ tr ∈ trans_df, 0 ≤ tr.amount) (ts : TransactionStats)
    (hts : analyze_transactions trans_df = some ts) :
    0 ≤ ts.travel_spend ∧ 0 ≤ ts.premium_spend ∧ 0 ≤ ts.online_spend := by
  unfold analyze_transactions at hts
  split at hts
  · cases hts
  · have hts := Option.some.inj hts
    subst hts
    refine ⟨?_, ?_, ?_⟩ <;>
    · apply List.sum_nonneg
      intro x hx
      rcases List.mem_map.mp hx with ⟨tr, htr, rfl⟩
      exact h tr (List.mem_of_mem_filter htr)

/-- Claim C8 (amended): every product score is at most 100 on every
analysis; it is also at least 0 whenever the analysis's category subtotals
are non-negative, which holds for every analysis extracted from a
transaction table whose amounts are non-negative.  (With a negative
amount in the table the travel score can be negative: see the
counterexample.) -/
theorem score_bounds (a : ClientAnalysis) (p : Product) (t : Tables) (code : Nat) :
    calculate_product_scores a p ≤ 100
    ∧ (NonnegSpends a → 0 ≤ calculate_product_scores a p)
    ∧ ((∀ tr ∈ t.transactions, 0 ≤ tr.amount) → NonnegSpends (analyze_client t code)) := by
  obtain ⟨hb0, hb80⟩ := deposit_base_score_bounds a
  refine ⟨?_, ?_, ?_⟩
  case refine_3 =>
    intro h ts hts
    exact analyze_transactions_nonneg _
      (fun tr htr => h tr (List.mem_of_mem_filter htr)) ts hts
  case refine_1 =>
    cases p
    case travel_card => exact min_le_right _ _
    case premium_card => exact min_le_right _ _
    case credit_card => exact min_le_right _ _
    case cash_loan => exact min_le_right _ _
    case fx_exchange =>
      simp only [calculate_product_scores]
      unfold fx_exchange_score
      split_ifs <;> norm_num
    case multi_deposit =>
      simp only [calculate_product_scores]
      split_ifs <;> linarith
    case savings_deposit =>
      simp only [calculate_product_scores]
      split_ifs <;> nlinarith
    case accumulative_deposit =>
      simp only [calculate_product_scores]
      split_ifs <;> nlinarith
    case investments =>
      simp only [calculate_product_scores]
      unfold investments_score
      split_ifs <;> norm_num
    case gold =>
      simp only [calculate_product_scores]
      unfold gold_score
      split_ifs <;> norm_num
  case refine_2 =>
    intro hn
    cases p
    case travel_card =>
      apply le_min _ (by norm_num)
      unfold travel_card_raw
      cases hts : a.transaction_stats with
      | none => norm_num
      | some ts =>
        obtain ⟨h1, h2, h3⟩ := hn ts hts
        have hratio :
            0 ≤ (if ts.total_spend > 0 then ts.travel_spend / ts.total_spend else 0) := by
          split_ifs with hpos
          · exact div_nonneg h1 (le_of_lt hpos)
          · norm_num
        have hr100 :
            0 ≤ (if ts.total_spend > 0 then ts.travel_spend / ts.total_spend else 0) * 100 :=
          mul_nonneg hratio (by norm_num)
        dsimp only
        split_ifs at hr100 ⊢ <;> linarith
    case premium_card =>
      apply le_min _ (by norm_num)
      unfold premium_card_raw
      cases hts : a.transaction_stats with
      | none =>
        cases a.transfer_stats <;> dsimp only
        all_goals try split_ifs
        all_goals norm_num
      | some ts =>
        obtain ⟨h1, h2, h3⟩ := hn ts hts
        have hratio :
            0 ≤ (if ts.total_spend > 0 then ts.premium_spend / ts.total_spend else 0) := by
          split_ifs with hpos
          · exact div_nonneg h2 (le_of_lt hpos)
          · norm_num
        have hr30 :
            0 ≤ (if ts.total_spend > 0 then ts.premium_spend / ts.total_spend else 0) * 30 :=
          mul_nonneg hratio (by norm_num)
        cases a.transfer_stats <;> dsimp only <;> split_ifs at hr30 ⊢ <;> linarith
    case credit_card =>
      apply le_min _ (by norm_num)
      unfold credit_card_raw
      cases hts : a.transaction_stats with
      | none =>
        cases a.transfer_stats <;> dsimp only
        all_goals try split_ifs
        all_goals norm_num
      | some ts =>
        obtain ⟨h1, h2, h3⟩ := hn ts hts
        have hratio :
            0 ≤ (if ts.total_spend > 0 then ts.online_spend / ts.total_spend else 0) := by
          split_ifs with hpos
          · exact div_nonneg h3 (le_of_lt hpos)
          · norm_num
        have hr40 :
            0 ≤ (if ts.total_spend > 0 then ts.online_spend / ts.total_spend else 0) * 40 :=
          mul_nonneg hratio (by norm_num)
        cases a.transfer_stats <;> dsimp only <;> split_ifs at hr40 ⊢ <;> linarith
    case fx_exchange =>
      simp only [calculate_product_scores]
      unfold fx_exchange_score
      split_ifs <;> norm_num
    case cash_loan =>
      apply le_min _ (by norm_num)
      unfold cash_loan_raw
      cases a.transfer_stats <;> dsimp only
      all_goals try split_ifs
      all_goals norm_num
    case multi_deposit =>
      simp only [calculate_product_scores]
      split_ifs <;> linarith
    case savings_deposit =>
      simp only [calculate_product_scores]
      split_ifs <;> nlinarith
    case accumulative_deposit =>
      simp only [calculate_product_scores]
      split_ifs <;> nlinarith
    case investments =>
      simp only [calculate_product_scores]
      unfold investments_score
      split_ifs <;> norm_num
    case gold =>
      simp only [calculate_product_scores]
      unfold gold_score
      split_ifs <;> norm_num

/-- Witness for C8 at the idle client (empty transaction stats give
non-negative subtotals vacuously). -/
theorem score_bounds_witness :
    0 ≤ calculate_product_scores (analyze_client idleClientTables 1) .travel_card :=
  (score_bounds (analyze_client idleClientTables 1) .travel_card idleClientTables 1).2.1
    (fun _ h => Option.noConfusion h)

/-- Counterexample to claim C8 as stated: a transaction table containing a
travel refund of −100 next to a 200 purchase yields travel score −100,
outside [0, 100]. -/
theorem score_bounds_counterexample :
    calculate_product_scores (analyze_client negativeAmountTables 1) .travel_card = -100
    ∧ calculate_product_scores (analyze_client negativeAmountTables 1) .travel_card < 0 := by
  constructor <;>
  · simp [negativeAmountTables, min_def, calculate_product_scores, travel_card_raw,
      premium_card_raw, credit_card_raw, fx_exchange_score, cash_loan_raw, deposit_base_score,
      low_volatility, investments_score, gold_score, analyze_client, analyze_transactions,
      analyze_transfers, analyze_fx_activity, defaultClient, categorySum, categorySpendOf,
      sampleVariance, top_categoriesOf, distinctCategories, loan_types, fx_currencies, fx_types,
      mostFrequent, travel_categories, online_categories, premium_categories,
      List.insertionSort, List.orderedInsert]
    try norm_num

/-- The saved output is sorted by client code. -/
theorem save_results_sorted (l : List Recommendation) :
    (save_results l).Sorted (fun a b => a.client_code ≤ b.client_code) :=
  List.sorted_insertionSort _ l

/-- With pairwise-distinct client codes the saved output is strictly
sorted by client code. -/
theorem save_results_strict_sorted (l : List Recommendation)
    (h : (l.map (·.client_code)).Nodup) :
    (save_results l).Sorted (fun a b => a.client_code < b.client_code) := by
  have hpair := save_results_sorted l
  have hnodup : ((save_results l).map (·.client_code)).Nodup := by
    have hp : ((save_results l).map (·.client_code)).Perm (l.map (·.client_code)) :=
      (List.perm_insertionSort _ l).map _
    exact hp.nodup_iff.mpr h
  have hne : (save_results l).Pairwise (fun a b => a.client_code ≠ b.client_code) := by
    have hn := hnodup
    unfold List.Nodup at hn
    rw [List.pairwise_map] at hn
    exact hn
  exact (hpair.and hne).imp fun hab => lt_of_le_of_ne hab.1 hab.2

/-- Two permuted row lists with distinct client codes sort to the same
output. -/
theorem save_results_eq_of_perm {r₁ r₂ : List Recommendation}
    (hperm : r₁.Perm r₂) (hnodup : (r₁.map (·.client_code)).Nodup) :
    save_results r₁ = save_results r₂ := by
  have hnodup₂ : (r₂.map (·.client_code)).Nodup :=
    ((hperm.map _).nodup_iff).mp hnodup
  exact List.eq_of_perm_of_sorted
    (((List.perm_insertionSort _ r₁).trans hperm).trans
      (List.perm_insertionSort _ r₂).symm)
    (save_results_strict_sorted r₁ hnodup)
    (save_results_strict_sorted r₂ hnodup₂)

/-- Claim C9: the saved batch output does not depend on the order in which
the discovered clients are processed — any two processing orders yield the
same row list as the pipeline itself — and the output is sorted ascending
by client code.  (Determinism on equal inputs is inherent: the embedded
pipeline is a pure function of the tables.) -/
theorem pipeline_deterministic (t : Tables)
    (pushGen : ClientAnalysis → Product → String) (order₁ order₂ : List Nat)
    (h₁ : order₁.Perm (discoveredCodes t)) (h₂ : order₂.Perm (discoveredCodes t)) :
    save_results (process_all_clients (normalStep t pushGen) order₁)
      = save_results (process_all_clients (normalStep t pushGen) order₂)
    ∧ ((run_pipeline t pushGen).map (·.client_code)).Sorted (· ≤ ·)
    ∧ run_pipeline t pushGen
        = save_results (process_all_clients (normalStep t pushGen) order₁) := by
  have key : ∀ order : List Nat, order.Perm (discoveredCodes t) →
      save_results (process_all_clients (normalStep t pushGen) order)
        = save_results (process_all_clients (normalStep t pushGen) (discoveredCodes t)) := by
    intro order ho
    apply save_results_eq_of_perm
    · unfold process_all_clients
      exact ho.map _
    · rw [process_all_clients_map_code]
      exact ho.nodup_iff.mpr (discoveredCodes_nodup t)
  refine ⟨(key order₁ h₁).trans (key order₂ h₂).symm, ?_, (key order₁ h₁).symm⟩
  show ((save_results _).map (fun x => x.client_code)).Pairwise (· ≤ ·)
  rw [List.pairwise_map]
  exact save_results_sorted _

/-- Witness for C9: the two-client tables processed in the orders [2, 1]
and [1, 2] save to the same output. -/
theorem pipeline_deterministic_witness :
    save_results (process_all_clients
        (normalStep twoClientTables fun _ _ => "сообщение") [2, 1])
      = save_results (process_all_clients
          (normalStep twoClientTables fun _ _ => "сообщение") [1, 2]) :=
  (pipeline_deterministic twoClientTables (fun _ _ => "сообщение") [2, 1] [1, 2]
    (by decide) (by decide)).1

/-- Claim C10: the error-path recommendation's display name is
"Сберегательный депозит", which differs from "Депозит сберегательный" —
the display name the normal path assigns to the savings-deposit fallback —
and lies outside the ten catalog display names. -/
theorem error_row_product_name :
    process_all_clients (fun _ => .error "processing error") [1]
        = [fallbackRecommendation 1]
    ∧ (fallbackRecommendation 1).product = "Сберегательный депозит"
    ∧ get_product_name .savings_deposit = "Депозит сберегательный"
    ∧ (fallbackRecommendation 1).product ≠ get_product_name .savings_deposit
    ∧ (fallbackRecommendation 1).product ∉ productOrder.map get_product_name := by
  refine ⟨rfl, rfl, rfl, by decide, by decide⟩

end BCC
